import Mathlib

/-!
Shallow embedding of the pvc-webhook repository: the admission webhook
(`src/internal/webhook/handler.go` and `patch.go`) and the pod
reconcilers (`src/unnamed/part_000` and
`src/controllers/oneagent-controller.go`).

Strings are modelled as sequences of characters with ASCII case folding;
Go byte-level length and slicing coincide with character counting on the
ASCII inputs the derivation pipeline produces.  Kubernetes client calls
are modelled by an explicit environment of call results together with a
trace of the requests the reconciler issues.  Resource quantities are
modelled by their canonical strings; `resource.ParseQuantity` is an
external library routine and is passed in as a parameter
`parse : String → Option String`.
-/

namespace PvcWebhook

/-- Kind of a JSON-patch operation emitted by `patch.go` (add or replace). -/
inductive OpKind
  | add
  | replace
deriving DecidableEq

/-- Discriminated volume source of a pod volume: the `EmptyDir` variant is
the convertible one; a converted volume carries a claim reference. -/
inductive VolumeSource
  | emptyDir
  | pvc (claimName : String)
  | other
deriving DecidableEq

/-- Pod volume: a name plus a source (`corev1.Volume` as used in handler.go). -/
structure Volume where
  name : String
  source : VolumeSource
deriving DecidableEq

/-- Whether the volume uses the emptyDir source (`v.EmptyDir != nil`). -/
def Volume.isEmptyDir (v : Volume) : Bool :=
  match v.source with
  | .emptyDir => true
  | _ => false

/-- Payload of a patch operation.  Go marshals the payload to JSON bytes;
the claims never inspect the bytes, so payloads are kept symbolic. -/
inductive PatchValue
  | str (s : String)
  | emptyMap
  | volume (v : Volume)
deriving DecidableEq

/-- The `patchOp` record from `src/internal/webhook/patch.go`. -/
structure PatchOp where
  op : OpKind
  path : String
  value : PatchValue
deriving DecidableEq

/-- The `addOp` constructor from patch.go. -/
def addOp (path : String) (v : PatchValue) : PatchOp :=
  { op := .add, path := path, value := v }

/-- The `replaceOp` constructor from patch.go. -/
def replaceOp (path : String) (v : PatchValue) : PatchOp :=
  { op := .replace, path := path, value := v }

/-- Pod projection used by both subsystems.  `annotations` is `none` when the
Go annotation map is nil; `deletionTimestampSet` models
`!pod.ObjectMeta.DeletionTimestamp.IsZero()`. -/
structure Pod where
  ns : String
  name : String
  annotations : Option (List (String × String))
  volumes : List Volume
  deletionTimestampSet : Bool
deriving DecidableEq

/-- Lookup in an annotation map (Go map indexing yields "" for a missing key). -/
def lookupList (m : List (String × String)) (k : String) : String :=
  match m.find? (fun p => p.1 == k) with
  | some p => p.2
  | none => ""

/-- Lookup through a possibly-nil annotation map (Go indexing of a nil map
also yields ""). -/
def lookupAnno (a : Option (List (String × String))) (k : String) : String :=
  match a with
  | none => ""
  | some m => lookupList m k

/-- The idempotency-marker annotation key (`convertedAnno` in handler.go). -/
def convertedAnno : String := "pvc-webhook/converted"

/-- Maximum resource-name length (`maxName` in handler.go). -/
def maxName : Nat := 63

/-- Helper `pick` from handler.go: first candidate whose whitespace-trimmed
form is non-empty, else "". -/
def pick : List String → String
  | [] => ""
  | v :: rest => if v.trim ≠ "" then v else pick rest

/-- Helper `getEnv` from handler.go: the environment value when non-empty,
else the default.  The environment variable's value is passed in directly. -/
def getEnv (v dflt : String) : String :=
  if v ≠ "" then v else dflt

/-- ASCII lowercase step of `strings.ToLower`. -/
def goLower (c : Char) : Char := c.toLower

/-- Character step of `strings.ReplaceAll(s, "_", "-")`. -/
def underscoreToHyphen (c : Char) : Char := if c = '_' then '-' else c

/-- Character step of `nameRe.ReplaceAllString` for the class `[^a-z0-9\-]`:
characters outside the class become a hyphen. -/
def nameReReplace (c : Char) : Char :=
  if ('a' ≤ c ∧ c ≤ 'z') ∨ ('0' ≤ c ∧ c ≤ '9') ∨ c = '-' then c else '-'

/-- One pass of `strings.ReplaceAll(s, "--", "-")` (left-to-right,
non-overlapping). -/
def replaceDoubleHyphen : List Char → List Char
  | '-' :: '-' :: rest => '-' :: replaceDoubleHyphen rest
  | c :: rest => c :: replaceDoubleHyphen rest
  | [] => []

/-- Test for `strings.Contains(s, "--")`. -/
def containsDouble : List Char → Bool
  | '-' :: '-' :: _ => true
  | _ :: rest => containsDouble rest
  | [] => false

/-- The `for strings.Contains(s, "--")` loop of `sanitize`, with fuel: each
pass that fires strictly shortens the list, so `length` fuel always reaches
the fixed point of the Go loop. -/
def collapseLoop : Nat → List Char → List Char
  | 0, s => s
  | Nat.succ fuel, s =>
    if containsDouble s then collapseLoop fuel (replaceDoubleHyphen s) else s

/-- The `strings.Trim(s, "-")` call of `sanitize`: strip leading and trailing
hyphens. -/
def trimHyphens (s : List Char) : List Char :=
  ((s.dropWhile (· = '-')).reverse.dropWhile (· = '-')).reverse

/-- The `sanitize` function of handler.go: lowercase, underscores to hyphens,
out-of-class characters to hyphens, collapse double hyphens to one until none
remain, trim hyphens at both ends. -/
def sanitize (s : String) : String :=
  let l0 := s.toList.map goLower
  let l1 := l0.map underscoreToHyphen
  let l2 := l1.map nameReReplace
  String.mk (trimHyphens (collapseLoop l2.length l2))

/-- The truncation at the `sanitize` call site (handler.go line 97):
`if len(claim) > maxName { claim = claim[:maxName] }`. -/
def truncateName (s : String) : String :=
  if s.length > maxName then String.mk (s.toList.take maxName) else s

/-- Character step of `strings.ReplaceAll(p, "~", "~0")`. -/
def escTilde : List Char → List Char
  | [] => []
  | c :: rest => if c = '~' then '~' :: '0' :: escTilde rest else c :: escTilde rest

/-- Character step of `strings.ReplaceAll(p, "~1", ...)` slash replacement:
`strings.ReplaceAll(p, "/", "~1")`. -/
def escSlash : List Char → List Char
  | [] => []
  | c :: rest => if c = '/' then '~' :: '1' :: escSlash rest else c :: escSlash rest

/-- The `strings.TrimPrefix(p, "/")` call: drop one leading slash when present. -/
def dropLeadingSlash : List Char → List Char
  | '/' :: rest => rest
  | l => l

/-- The `pathEscape` function of handler.go, applied by ServeHTTP to the whole
composite pointer path: tilde escape, then slash escape, then re-attach a
single leading slash. -/
def pathEscape (p : String) : String :=
  String.mk ('/' :: dropLeadingSlash (escSlash (escTilde p.toList)))

/-- Handler configuration (the `Handler` struct of handler.go). -/
structure Handler where
  defaultSize : String
  defaultSC : String
  defaultAccess : String
deriving DecidableEq

/-- The `NewHandler` defaults, with the three environment values passed in
("" models an unset variable). -/
def newHandler (envSize envSC envAccess : String) : Handler :=
  { defaultSize := getEnv envSize "10Gi"
    defaultSC := getEnv envSC "standard"
    defaultAccess := getEnv envAccess "ReadWriteOnce" }

/-- Handler with all three environment variables unset. -/
def defaultHandler : Handler := newHandler "" "" ""

/-- Admission request: correlation UID, the request kind
(`review.Request.Kind.Kind`), and the decode outcome of the raw
current-state object bytes (`deser.Decode(review.Request.Object.Raw, ...)`). -/
structure AdmissionRequest where
  uid : String
  kindKind : String
  object : Except String Pod

/-- Admission review: the request pointer may be nil (`none`). -/
structure AdmissionReview where
  request : Option AdmissionRequest

/-- Admission response as assembled by handler.go. -/
structure AdmissionResponse where
  uid : String
  allowed : Bool
  patch : Option (List PatchOp)
  patchType : Option String
  resultMessage : Option String
  resultCode : Option Nat
deriving DecidableEq

/-- Outcome of one ServeHTTP invocation: either a response document is
written, or the handler panics (a nil-pointer dereference) and no document
is produced. -/
inductive HandlerOutcome
  | panicked
  | response (r : AdmissionResponse)
deriving DecidableEq

/-- The `allow` helper of handler.go.  It reads `in.Request.UID`, so a nil
request is a nil-pointer dereference: the call panics. -/
def allow (review : AdmissionReview) : HandlerOutcome :=
  match review.request with
  | none => .panicked
  | some req =>
    .response { uid := req.uid, allowed := true, patch := none,
                patchType := none, resultMessage := none, resultCode := none }

/-- The `toErrorResponse` helper of handler.go: allowed=false, message from
the error, HTTP-style code 500.  It also reads `in.Request.UID`, so a nil
request is a panic. -/
def toErrorResponse (review : AdmissionReview) (msg : String) : HandlerOutcome :=
  match review.request with
  | none => .panicked
  | some req =>
    .response { uid := req.uid, allowed := false, patch := none,
                patchType := none, resultMessage := some msg,
                resultCode := some 500 }

/-- Body of the inbound HTTP request, by decode outcome of
`json.NewDecoder(r.Body).Decode(&review)`: on failure the partially-decoded
review variable is retained (its request field may or may not be nil). -/
inductive Body
  | undecodable (rv : AdmissionReview) (errMsg : String)
  | decoded (review : AdmissionReview)

/-- The Go `pod.Annotations != nil && pod.Annotations[convertedAnno] == "true"`
idempotency test of ServeHTTP. -/
def annoIsTrue (pod : Pod) : Bool :=
  match pod.annotations with
  | none => false
  | some m => lookupList m convertedAnno == "true"

/-- The claim-name derivation of ServeHTTP (handler.go lines 96-97):
`sanitize(fmt.Sprintf("pvc-%s-%s-%s", pod.Namespace, pod.Name, v.Name))`
followed by truncation to `maxName`. -/
def claimFor (pod : Pod) (v : Volume) : String :=
  truncateName (sanitize ("pvc-" ++ pod.ns ++ "-" ++ pod.name ++ "-" ++ v.name))

/-- The replacement volume built for a converted volume: same name, source
now a claim reference to the derived name. -/
def newVolFor (pod : Pod) (v : Volume) : Volume :=
  { name := v.name, source := .pvc (claimFor pod v) }

/-- The volume-replace operation emitted for convertible volume `iv.2` at
index `iv.1`. -/
def mkReplaceOp (pod : Pod) (iv : Nat × Volume) : PatchOp :=
  replaceOp ("/spec/volumes/" ++ toString iv.1) (.volume (newVolFor pod iv.2))

/-- The four annotation entries recorded for one converted volume, in the
source's assignment order. -/
def volAnnoEntries (h : Handler) (pod : Pod) (v : Volume) : List (String × String) :=
  let volKey := "pvc-webhook.vol/" ++ v.name
  let size := pick [lookupAnno pod.annotations (volKey ++ ".size"), h.defaultSize]
  let sc := pick [lookupAnno pod.annotations (volKey ++ ".storageClass"), h.defaultSC]
  let am := pick [lookupAnno pod.annotations (volKey ++ ".accessModes"), h.defaultAccess]
  [(volKey ++ ".size", size), (volKey ++ ".storageClass", sc),
   (volKey ++ ".accessModes", am), (volKey ++ ".claimName", claimFor pod v)]

/-- Go map assignment `addAnno[k] = v` on the association-list model:
overwrite the existing binding or append a new one. -/
def insertAnno (m : List (String × String)) (kv : String × String) :
    List (String × String) :=
  if m.any (fun p => p.1 == kv.1) then
    m.map (fun p => if p.1 == kv.1 then kv else p)
  else m ++ [kv]

/-- The `for i, v := range pod.Spec.Volumes` indexing. -/
def enumFrom : Nat → List Volume → List (Nat × Volume)
  | _, [] => []
  | n, v :: vs => (n, v) :: enumFrom (n + 1) vs

/-- One iteration of the ServeHTTP volume loop over the accumulator
(ops, addAnno, converted): non-emptyDir volumes are skipped; a convertible
volume appends its replace op, records its four annotation entries, and sets
converted. -/
def volStep (h : Handler) (pod : Pod)
    (acc : List PatchOp × List (String × String) × Bool) (iv : Nat × Volume) :
    List PatchOp × List (String × String) × Bool :=
  if iv.2.isEmptyDir then
    (acc.1 ++ [mkReplaceOp pod iv],
     (volAnnoEntries h pod iv.2).foldl insertAnno acc.2.1,
     true)
  else acc

/-- The full volume loop of ServeHTTP starting from empty accumulators. -/
def convertAcc (h : Handler) (pod : Pod) :
    List PatchOp × List (String × String) × Bool :=
  (enumFrom 0 pod.volumes).foldl (volStep h pod) ([], [], false)

/-- Annotation-key add operation as emitted by ServeHTTP:
`addOp(pathEscape("/metadata/annotations/"+k), v)`. -/
def annoAddOp (kv : String × String) : PatchOp :=
  addOp (pathEscape ("/metadata/annotations/" ++ kv.1)) (.str kv.2)

/-- The final idempotency-marker operation of ServeHTTP. -/
def markerOp : PatchOp :=
  addOp (pathEscape ("/metadata/annotations/" ++ convertedAnno)) (.str "true")

/-- The `ServeHTTP` method of handler.go.  `iter` models the Go runtime's
arbitrary iteration order over the `addAnno` map: it is applied to the
association list before the annotation adds are emitted (the real runtime
yields some permutation of the entries). -/
def serveHTTP (h : Handler)
    (iter : List (String × String) → List (String × String)) (body : Body) :
    HandlerOutcome :=
  match body with
  | .undecodable rv errMsg => toErrorResponse rv errMsg
  | .decoded review =>
    match review.request with
    | none => allow review
    | some req =>
      if req.kindKind ≠ "Pod" then allow review
      else
        match req.object with
        | .error e => toErrorResponse review ("decode pod: " ++ e)
        | .ok pod =>
          if annoIsTrue pod then allow review
          else
            let acc := convertAcc h pod
            if acc.2.2 then
              .response
                { uid := req.uid, allowed := true,
                  patch := some
                    ((if pod.annotations = none then
                        acc.1 ++ [addOp "/metadata/annotations" PatchValue.emptyMap]
                      else acc.1)
                     ++ (iter acc.2.1).map annoAddOp ++ [markerOp]),
                  patchType := some "JSONPatch",
                  resultMessage := some "converted emptyDir to PVC",
                  resultCode := none }
            else allow review

/-- Kubernetes API error category, as discriminated by
`errors.IsNotFound` / `errors.IsAlreadyExists` in the controllers. -/
inductive KErr
  | notFound
  | alreadyExists
  | other (msg : String)
deriving DecidableEq

/-- Result of the client Get of the pod keyed by the reconcile request. -/
inductive GetPodResult
  | ok (pod : Pod)
  | err (e : KErr)

/-- PVC object as observed by the controllers: name, namespace, and the
status phase string (`pvc.Status.Phase`). -/
structure PVCObj where
  name : String
  ns : String
  phase : String
deriving DecidableEq

/-- Result of the client Get of the PVC by (pod namespace, claim name). -/
inductive GetPVCResult
  | ok (pvc : PVCObj)
  | err (e : KErr)
deriving DecidableEq

/-- Result of a client Create or Delete call. -/
inductive WriteResult
  | ok
  | err (e : KErr)
deriving DecidableEq

/-- Payload of a PVC create request as built by the controllers. -/
structure PVCSpec where
  name : String
  ns : String
  size : String
  storageClassName : Option String
  labels : List (String × String)
  hasOwnerRef : Bool
deriving DecidableEq

/-- One request issued against the cluster store. -/
inductive ClusterReq
  | getPod (ns name : String)
  | getPVC (ns name : String)
  | deletePVC (ns name : String)
  | createPVC (spec : PVCSpec)
deriving DecidableEq

/-- Whether a cluster request is a PVC delete. -/
def isDeleteReq : ClusterReq → Bool
  | .deletePVC _ _ => true
  | _ => false

/-- Environment of client-call results for one reconcile pass.  Each call
site occurs at most once per pass, so a flat record suffices. -/
structure ClusterEnv where
  getPod : GetPodResult
  getPVC : GetPVCResult
  del : WriteResult
  create : WriteResult

/-- Outcome of one reconcile pass: the requeue delay of the returned
`ctrl.Result` (in seconds), the returned error, and the trace of cluster
requests issued, in call order. -/
structure ReconcileResult where
  requeueAfterSeconds : Option Nat
  error : Option KErr
  trace : List ClusterReq
deriving DecidableEq

/-- The `PVCReconciler` struct of `src/unnamed/part_000` (its client is the
environment; the two defaults are configuration fields). -/
structure PVCReconciler where
  defaultSize : String
  defaultClass : String

/-- Size-annotation resolution of `PVCReconciler.Reconcile`: the
`pvc-webhook/storage-size` annotation, else the configured default. -/
def PVCReconciler.resolvedSizeStr (r : PVCReconciler) (pod : Pod) : String :=
  let s := lookupAnno pod.annotations "pvc-webhook/storage-size"
  if s = "" then r.defaultSize else s

/-- The `Reconcile` method of `PVCReconciler` (src/unnamed/part_000).
Quantities are canonical strings and `parse` stands for
`resource.ParseQuantity`.  Branches mirror the source: pod lookup, claim
annotation check, the deletion-timestamp branch (delete the PVC exactly when
its lookup succeeds), then parse-size / class resolution / existence check /
create. -/
def PVCReconciler.reconcile (r : PVCReconciler) (parse : String → Option String)
    (env : ClusterEnv) (ns podName : String) : ReconcileResult :=
  match env.getPod with
  | .err .notFound => ⟨none, none, [.getPod ns podName]⟩
  | .err e => ⟨none, some e, [.getPod ns podName]⟩
  | .ok pod =>
    let claimName := lookupAnno pod.annotations "pvc-webhook/claim"
    if claimName = "" then ⟨none, none, [.getPod ns podName]⟩
    else if pod.deletionTimestampSet then
      match env.getPVC with
      | .ok _ =>
        match env.del with
        | .ok =>
          ⟨none, none,
           [.getPod ns podName, .getPVC pod.ns claimName, .deletePVC pod.ns claimName]⟩
        | .err e =>
          ⟨none, some e,
           [.getPod ns podName, .getPVC pod.ns claimName, .deletePVC pod.ns claimName]⟩
      | .err _ => ⟨none, none, [.getPod ns podName, .getPVC pod.ns claimName]⟩
    else
      match parse (r.resolvedSizeStr pod) with
      | none => ⟨none, none, [.getPod ns podName]⟩
      | some size =>
        let className0 := lookupAnno pod.annotations "pvc-webhook/storage-class"
        let className := if className0 = "" then r.defaultClass else className0
        match env.getPVC with
        | .ok _ => ⟨none, none, [.getPod ns podName, .getPVC pod.ns claimName]⟩
        | .err .notFound =>
          let spec : PVCSpec :=
            { name := claimName, ns := pod.ns, size := size,
              storageClassName := some className, labels := [],
              hasOwnerRef := true }
          match env.create with
          | .ok =>
            ⟨none, none,
             [.getPod ns podName, .getPVC pod.ns claimName, .createPVC spec]⟩
          | .err e =>
            ⟨none, some e,
             [.getPod ns podName, .getPVC pod.ns claimName, .createPVC spec]⟩
        | .err e => ⟨none, some e, [.getPod ns podName, .getPVC pod.ns claimName]⟩

/-- The `Reconcile` method of `PersistentVolumeClaimReconciler`
(src/controllers/oneagent-controller.go).  There is no deletion-timestamp
branch; an existing PVC is phase-inspected (Bound terminal, Pending requeue
5s, otherwise requeue 10s); on a missing PVC the size annotation defaults to
"2Gi", an unparseable size is replaced by `resource.MustParse("2Gi")` (the
canonical string "2Gi"), and the PVC is created with labels, an owner
reference, and a 5s requeue on success. -/
def PersistentVolumeClaimReconciler.reconcile (parse : String → Option String)
    (env : ClusterEnv) (ns podName : String) : ReconcileResult :=
  match env.getPod with
  | .err .notFound => ⟨none, none, [.getPod ns podName]⟩
  | .err e => ⟨none, some e, [.getPod ns podName]⟩
  | .ok pod =>
    let claimName := lookupAnno pod.annotations "pvc-webhook/claim"
    if claimName = "" then ⟨none, none, [.getPod ns podName]⟩
    else
      let storageSize0 := lookupAnno pod.annotations "pvc-webhook/storage-size"
      let storageSize := if storageSize0 = "" then "2Gi" else storageSize0
      let storageClass := lookupAnno pod.annotations "pvc-webhook/storage-class"
      match env.getPVC with
      | .ok pvc =>
        if pvc.phase = "Bound" then
          ⟨none, none, [.getPod ns podName, .getPVC pod.ns claimName]⟩
        else if pvc.phase = "Pending" then
          ⟨some 5, none, [.getPod ns podName, .getPVC pod.ns claimName]⟩
        else
          ⟨some 10, none, [.getPod ns podName, .getPVC pod.ns claimName]⟩
      | .err .notFound =>
        let qty := match parse storageSize with
          | some q => q
          | none => "2Gi"
        let spec : PVCSpec :=
          { name := claimName, ns := pod.ns, size := qty,
            storageClassName := if storageClass ≠ "" then some storageClass else none,
            labels := [("created-by", "pvc-webhook"), ("pod", pod.name)],
            hasOwnerRef := true }
        match env.create with
        | .ok =>
          ⟨some 5, none,
           [.getPod ns podName, .getPVC pod.ns claimName, .createPVC spec]⟩
        | .err e =>
          ⟨none, some e,
           [.getPod ns podName, .getPVC pod.ns claimName, .createPVC spec]⟩
      | .err e => ⟨none, some e, [.getPod ns podName, .getPVC pod.ns claimName]⟩

/-! Spec-side definitions used to compare the code's behavior with the
specification's wording, plus concrete fixtures and helper lemmas. -/

/-- Modelled from the spec: RFC6901 escaping of a single path segment,
applied to the annotation key alone (`~` to `~0`, then `/` to `~1`),
before it is embedded after the structural pointer path. -/
def rfc6901EscapeKey (k : String) : String :=
  String.mk (escSlash (escTilde k.toList))

/-- Test for the character class `[a-z0-9]`. -/
def isLowerAlnum (c : Char) : Bool :=
  if ('a' ≤ c ∧ c ≤ 'z') ∨ ('0' ≤ c ∧ c ≤ '9') then true else false

/-- Head or last character check used by the name pattern. -/
def firstOk : Option Char → Bool
  | some c => isLowerAlnum c
  | none => false

/-- Modelled from the spec: the name-validity pattern
`[a-z0-9]([a-z0-9-]*[a-z0-9])?` anchored at both ends — non-empty, every
character in `[a-z0-9-]`, and the first and last characters in `[a-z0-9]`. -/
def matchesNameRegex (s : String) : Bool :=
  let l := s.toList
  (!l.isEmpty) && l.all (fun d => isLowerAlnum d || d == '-')
    && firstOk l.head? && firstOk l.getLast?

/-- Paths of the emitted patch operations, empty when no patch or a panic. -/
def patchPaths (o : HandlerOutcome) : List String :=
  match o with
  | .response r => (r.patch.getD []).map PatchOp.path
  | .panicked => []

/-- Convertible volumes with their indices, in discovery order. -/
def convList (pod : Pod) : List (Nat × Volume) :=
  (enumFrom 0 pod.volumes).filter (fun iv => iv.2.isEmptyDir)

/-- Final contents of the `addAnno` map after the volume loop. -/
def annoMapOf (h : Handler) (pod : Pod) : List (String × String) :=
  (convertAcc h pod).2.1

/-- The conditional add of the empty annotations container. -/
def basePatch (pod : Pod) : List PatchOp :=
  if pod.annotations = none then
    [addOp "/metadata/annotations" PatchValue.emptyMap]
  else []

/-- Concrete pod with one convertible volume and no annotation map. -/
def cxPod1 : Pod :=
  { ns := "ns1", name := "web-0", annotations := none,
    volumes := [{ name := "data", source := .emptyDir }],
    deletionTimestampSet := false }

/-- Admission request wrapping `cxPod1`. -/
def cxReq1 : AdmissionRequest :=
  { uid := "u1", kindKind := "Pod", object := Except.ok cxPod1 }

/-- Admission review wrapping `cxReq1`. -/
def cxReview1 : AdmissionReview := { request := some cxReq1 }

/-- Partially-decoded review left behind by a failed body decode: the
request pointer is nil. -/
def badReview : AdmissionReview := { request := none }

/-- Request whose embedded pod object fails to decode. -/
def podFailReq : AdmissionRequest :=
  { uid := "u2", kindKind := "Pod", object := Except.error "no kind registered" }

/-- Review carrying `podFailReq`. -/
def podFailReview : AdmissionReview := { request := some podFailReq }

/-- Fifty-eight letters `a`: a namespace that places the 63rd character of
the composed claim name on a hyphen. -/
def ns58 : String := String.mk (List.replicate 58 'a')

/-- Pod in namespace `ns58`. -/
def cxPod3 : Pod :=
  { ns := ns58, name := "web", annotations := none,
    volumes := [{ name := "data", source := .emptyDir }],
    deletionTimestampSet := false }

/-- Convertible volume of `cxPod3`. -/
def cxVol3 : Volume := { name := "data", source := .emptyDir }

/-- Concrete stand-in for `resource.ParseQuantity`, defined on the canonical
quantities used in the fixtures; "bogus" fails to parse. -/
def cxParse : String → Option String :=
  fun s => if s = "2Gi" then some "2Gi" else if s = "5Gi" then some "5Gi" else none

/-- Pod with a claim annotation and an unparseable size annotation. -/
def cxPod4 : Pod :=
  { ns := "ns1", name := "web-0",
    annotations := some [("pvc-webhook/claim", "pvc-x"),
                         ("pvc-webhook/storage-size", "bogus")],
    volumes := [], deletionTimestampSet := false }

/-- Environment for `cxPod4`: PVC absent, create succeeds. -/
def cxEnv4 : ClusterEnv :=
  { getPod := GetPodResult.ok cxPod4, getPVC := GetPVCResult.err KErr.notFound,
    del := WriteResult.ok, create := WriteResult.ok }

/-- PVCReconciler configuration used in the fixtures. -/
def r5 : PVCReconciler := { defaultSize := "2Gi", defaultClass := "standard" }

/-- Pod with a claim annotation and a parseable size annotation. -/
def cxPod5 : Pod :=
  { ns := "ns1", name := "web-0",
    annotations := some [("pvc-webhook/claim", "pvc-x"),
                         ("pvc-webhook/storage-size", "5Gi")],
    volumes := [], deletionTimestampSet := false }

/-- Environment for `cxPod5`: PVC absent, create races and fails with
"already exists". -/
def cxEnv5 : ClusterEnv :=
  { getPod := GetPodResult.ok cxPod5, getPVC := GetPVCResult.err KErr.notFound,
    del := WriteResult.ok, create := WriteResult.err KErr.alreadyExists }

/-- Pod entering deletion with a claim annotation. -/
def cxPod6 : Pod :=
  { ns := "ns1", name := "web-0",
    annotations := some [("pvc-webhook/claim", "pvc-x")],
    volumes := [], deletionTimestampSet := true }

/-- Environment for `cxPod6`: the named PVC exists and is bound. -/
def cxEnv6 : ClusterEnv :=
  { getPod := GetPodResult.ok cxPod6,
    getPVC := GetPVCResult.ok { name := "pvc-x", ns := "ns1", phase := "Bound" },
    del := WriteResult.ok, create := WriteResult.ok }

/-- Pod already carrying the idempotency marker. -/
def pod7 : Pod :=
  { ns := "ns1", name := "web-0",
    annotations := some [("pvc-webhook/converted", "true")],
    volumes := [{ name := "data", source := .emptyDir }],
    deletionTimestampSet := false }

/-- Admission request wrapping `pod7`. -/
def req7 : AdmissionRequest :=
  { uid := "u7", kindKind := "Pod", object := Except.ok pod7 }

/-- Review carrying `req7`. -/
def rev7 : AdmissionReview := { request := some req7 }

/-- Pod used for determinism: no annotations, no volumes. -/
def pod9a : Pod :=
  { ns := "ns1", name := "web-0", annotations := none, volumes := [],
    deletionTimestampSet := false }

/-- Pod agreeing with `pod9a` only on namespace and name. -/
def pod9b : Pod :=
  { ns := "ns1", name := "web-0", annotations := some [("x", "y")],
    volumes := [{ name := "other", source := .other }],
    deletionTimestampSet := true }

/-- Well-formed review whose request field is absent. -/
def rev10 : AdmissionReview := { request := none }

/-- Volume-loop characterization: the ops component of the fold is the
initial ops followed by one replace per convertible volume, in list order. -/
theorem foldl_volStep_fst (h : Handler) (pod : Pod) (l : List (Nat × Volume)) :
    ∀ (ops : List PatchOp) (m : List (String × String)) (b : Bool),
    (l.foldl (volStep h pod) (ops, m, b)).1 =
      ops ++ (l.filter (fun iv => iv.2.isEmptyDir)).map (mkReplaceOp pod) := by
  induction l with
  | nil => intro ops m b; simp
  | cons iv tl ih =>
    intro ops m b
    cases hc : iv.2.isEmptyDir with
    | true => simp [List.foldl_cons, volStep, hc, ih, List.filter_cons]
    | false => simp [List.foldl_cons, volStep, hc, ih, List.filter_cons]

/-- Volume-loop characterization: the converted flag of the fold is the
initial flag joined with existence of a convertible volume in the list. -/
theorem foldl_volStep_cvt (h : Handler) (pod : Pod) (l : List (Nat × Volume)) :
    ∀ (ops : List PatchOp) (m : List (String × String)) (b : Bool),
    (l.foldl (volStep h pod) (ops, m, b)).2.2 =
      (b || l.any (fun iv => iv.2.isEmptyDir)) := by
  induction l with
  | nil => intro ops m b; simp
  | cons iv tl ih =>
    intro ops m b
    cases hc : iv.2.isEmptyDir with
    | true => simp [List.foldl_cons, volStep, hc, ih]
    | false => simp [List.foldl_cons, volStep, hc, ih]

/-- Enumeration preserves the convertibility test. -/
theorem enumFrom_any (vs : List Volume) :
    ∀ n, ((enumFrom n vs).any (fun iv => iv.2.isEmptyDir)) = vs.any Volume.isEmptyDir := by
  induction vs with
  | nil => intro n; simp [enumFrom]
  | cons v tl ih => intro n; simp [enumFrom, ih]

/-- Members of `enumFrom n vs` carry indices at least `n`. -/
theorem mem_enumFrom_le (vs : List Volume) :
    ∀ (n : Nat) (iv : Nat × Volume), iv ∈ enumFrom n vs → n ≤ iv.1 := by
  induction vs with
  | nil => intro n iv h; simp [enumFrom] at h
  | cons v tl ih =>
    intro n iv h
    simp only [enumFrom, List.mem_cons] at h
    cases h with
    | inl he => cases he; exact Nat.le_refl n
    | inr ht => exact Nat.le_of_succ_le (ih (n + 1) iv ht)

/-- The enumeration has strictly increasing indices. -/
theorem pairwise_enumFrom (vs : List Volume) :
    ∀ n, List.Pairwise (fun a b : Nat × Volume => a.1 < b.1) (enumFrom n vs) := by
  induction vs with
  | nil => intro n; simp [enumFrom]
  | cons v tl ih =>
    intro n
    refine List.Pairwise.cons ?_ (ih (n + 1))
    intro b hb
    exact Nat.lt_of_succ_le (mem_enumFrom_le tl (n + 1) b hb)

/-! Claim theorems. -/

/-- Claim C1: the code violates the claimed pointer layout.  `pathEscape` is
applied by ServeHTTP to the whole composite path, so the emitted marker path
escapes the structural separators of `/metadata/annotations/` as well: it
equals `/~1metadata~1annotations~1pvc-webhook~1converted`, not the claimed
literal prefix followed by the segment-escaped key, and the handler's own
emitted patch carries that mangled path. -/
theorem claim1_pathescape_bug :
    pathEscape ("/metadata/annotations/" ++ convertedAnno)
      = "/~1metadata~1annotations~1pvc-webhook~1converted"
    ∧ "/metadata/annotations/" ++ rfc6901EscapeKey convertedAnno
      = "/metadata/annotations/pvc-webhook~1converted"
    ∧ pathEscape ("/metadata/annotations/" ++ convertedAnno)
      ≠ "/metadata/annotations/" ++ rfc6901EscapeKey convertedAnno
    ∧ (patchPaths (serveHTTP defaultHandler id (Body.decoded cxReview1))).getLast?
      = some "/~1metadata~1annotations~1pvc-webhook~1converted" := by
  refine ⟨rfl, rfl, by decide, rfl⟩

/-- Claim C2: the code violates the claimed crash-freedom.  A request body
that fails to decode and leaves the partially-decoded review with a nil
request makes `toErrorResponse` dereference `in.Request.UID`: the handler
panics and writes no response document.  When the request pointer is
present — in particular on every embedded-pod decode failure — the
allowed=false diagnostic response is produced as claimed. -/
theorem claim2_decode_failure_bug :
    serveHTTP defaultHandler id (Body.undecodable badReview "unexpected EOF")
      = HandlerOutcome.panicked
    ∧ serveHTTP defaultHandler id (Body.decoded podFailReview)
      = HandlerOutcome.response
          { uid := "u2", allowed := false, patch := none, patchType := none,
            resultMessage := some "decode pod: no kind registered",
            resultCode := some 500 } :=
  ⟨rfl, rfl⟩

/-- Claim C3: the code violates the claimed hyphen stripping.  For namespace
`ns58`, pod `web`, volume `data`, the sanitized composite is 71 characters
and the 63-character cut lands right after a hyphen; the handler truncates
with `claim[:maxName]` and never re-trims, so the derived claim name ends in
a hyphen and fails the name pattern. -/
theorem claim3_truncation_bug :
    claimFor cxPod3 cxVol3 = "pvc-" ++ ns58 ++ "-"
    ∧ (claimFor cxPod3 cxVol3).length = 63
    ∧ (claimFor cxPod3 cxVol3).toList.getLast? = some '-'
    ∧ matchesNameRegex (claimFor cxPod3 cxVol3) = false := by
  refine ⟨by decide, by decide, by decide, by decide⟩

/-- Claim C4 counterexample: the `PersistentVolumeClaimReconciler` variant
(src/controllers/oneagent-controller.go), under exactly the claim's
conditions — claim annotation present, PVC absent, size annotation
unparseable — substitutes the 2Gi default and issues a create, returning no
error, instead of the claimed no-op. -/
theorem claim4_counterexample :
    (PersistentVolumeClaimReconciler.reconcile cxParse cxEnv4 "ns1" "web-0").error = none
    ∧ ClusterReq.createPVC
        { name := "pvc-x", ns := "ns1", size := "2Gi", storageClassName := none,
          labels := [("created-by", "pvc-webhook"), ("pod", "web-0")],
          hasOwnerRef := true }
      ∈ (PersistentVolumeClaimReconciler.reconcile cxParse cxEnv4 "ns1" "web-0").trace := by
  exact ⟨rfl, by decide⟩

/-- Claim C4 (amended): the `PVCReconciler` (src/unnamed/part_000) behaves as
claimed — with the claim annotation present and the resolved size annotation
unparseable, the reconcile pass returns the no-op outcome, issuing no create
request. -/
theorem claim4_pvcreconciler_noop (r : PVCReconciler)
    (parse : String → Option String) (env : ClusterEnv) (pod : Pod)
    (ns podName : String)
    (hget : env.getPod = GetPodResult.ok pod)
    (hclaim : lookupAnno pod.annotations "pvc-webhook/claim" ≠ "")
    (hdel : pod.deletionTimestampSet = false)
    (hpvc : env.getPVC = GetPVCResult.err KErr.notFound)
    (hparse : parse (r.resolvedSizeStr pod) = none) :
    r.reconcile parse env ns podName
      = { requeueAfterSeconds := none, error := none,
          trace := [ClusterReq.getPod ns podName] }
    ∧ ∀ s, ClusterReq.createPVC s ∉ (r.reconcile parse env ns podName).trace := by
  have hmain : r.reconcile parse env ns podName
      = { requeueAfterSeconds := none, error := none,
          trace := [ClusterReq.getPod ns podName] } := by
    simp [PVCReconciler.reconcile, hget, hclaim, hdel, hparse]
  refine ⟨hmain, ?_⟩
  intro s
  rw [hmain]
  simp

/-- Witness for the amended claim C4 at the concrete fixture. -/
theorem claim4_pvcreconciler_noop_w :
    r5.reconcile cxParse cxEnv4 "ns1" "web-0"
      = { requeueAfterSeconds := none, error := none,
          trace := [ClusterReq.getPod "ns1" "web-0"] }
    ∧ ∀ s, ClusterReq.createPVC s ∉ (r5.reconcile cxParse cxEnv4 "ns1" "web-0").trace :=
  claim4_pvcreconciler_noop r5 cxParse cxEnv4 cxPod4 "ns1" "web-0" rfl
    (by decide) rfl rfl rfl

/-- Claim C5 counterexample: the `PVCReconciler` create path returns the
"already exists" failure as an error; it is not treated as success. -/
theorem claim5_counterexample :
    (r5.reconcile cxParse cxEnv5 "ns1" "web-0").error = some KErr.alreadyExists := rfl

/-- Claim C5 (amended): when the create request fails with "already exists",
`Reconcile` returns that error to the caller's retry machinery (the
existence check only absorbs the race on a later pass). -/
theorem claim5_already_exists_returned (r : PVCReconciler)
    (parse : String → Option String) (env : ClusterEnv) (pod : Pod)
    (q ns podName : String)
    (hget : env.getPod = GetPodResult.ok pod)
    (hclaim : lookupAnno pod.annotations "pvc-webhook/claim" ≠ "")
    (hdel : pod.deletionTimestampSet = false)
    (hparse : parse (r.resolvedSizeStr pod) = some q)
    (hpvc : env.getPVC = GetPVCResult.err KErr.notFound)
    (hcr : env.create = WriteResult.err KErr.alreadyExists) :
    (r.reconcile parse env ns podName).error = some KErr.alreadyExists := by
  simp [PVCReconciler.reconcile, hget, hclaim, hdel, hparse, hpvc, hcr]

/-- Witness for the amended claim C5 at the concrete fixture. -/
theorem claim5_already_exists_returned_w :
    (r5.reconcile cxParse cxEnv5 "ns1" "web-0").error = some KErr.alreadyExists :=
  claim5_already_exists_returned r5 cxParse cxEnv5 cxPod5 "5Gi" "ns1" "web-0" rfl
    (by decide) rfl rfl rfl rfl

/-- Claim C6 counterexample: the `PersistentVolumeClaimReconciler` variant
has no deletion-timestamp handling at all — for a pod entering deletion with
a claim annotation whose PVC exists (phase Bound), it issues no delete
request, not the claimed exactly-one. -/
theorem claim6_counterexample :
    (PersistentVolumeClaimReconciler.reconcile cxParse cxEnv6 "ns1" "web-0").trace.filter
        isDeleteReq = []
    ∧ (PersistentVolumeClaimReconciler.reconcile cxParse cxEnv6 "ns1" "web-0").error
        = none :=
  ⟨rfl, rfl⟩

/-- Claim C6 (amended): the `PVCReconciler` (src/unnamed/part_000) implements
the claimed deletion compensation — for a deleting pod with a claim
annotation it issues exactly one delete, for the annotated PVC name, when
the PVC lookup finds the object, and no delete when the lookup reports not
found; neither case schedules a requeue. -/
theorem claim6_deletion_compensation (r : PVCReconciler)
    (parse : String → Option String) (env : ClusterEnv) (pod : Pod)
    (ns podName : String)
    (hget : env.getPod = GetPodResult.ok pod)
    (hclaim : lookupAnno pod.annotations "pvc-webhook/claim" ≠ "")
    (hdel : pod.deletionTimestampSet = true) :
    (∀ pvc, env.getPVC = GetPVCResult.ok pvc →
       (r.reconcile parse env ns podName).trace.filter isDeleteReq
         = [ClusterReq.deletePVC pod.ns (lookupAnno pod.annotations "pvc-webhook/claim")]
       ∧ (r.reconcile parse env ns podName).requeueAfterSeconds = none)
    ∧ (env.getPVC = GetPVCResult.err KErr.notFound →
       (r.reconcile parse env ns podName).trace.filter isDeleteReq = []
       ∧ (r.reconcile parse env ns podName).requeueAfterSeconds = none) := by
  constructor
  · intro pvc hpvc
    cases hd : env.del with
    | ok => simp [PVCReconciler.reconcile, hget, hclaim, hdel, hpvc, hd, isDeleteReq]
    | err e => simp [PVCReconciler.reconcile, hget, hclaim, hdel, hpvc, hd, isDeleteReq]
  · intro hpvc
    simp [PVCReconciler.reconcile, hget, hclaim, hdel, hpvc, isDeleteReq]

/-- Witness for the amended claim C6 at the concrete fixture. -/
theorem claim6_deletion_compensation_w :
    (r5.reconcile cxParse cxEnv6 "ns1" "web-0").trace.filter isDeleteReq
      = [ClusterReq.deletePVC "ns1" "pvc-x"]
    ∧ (r5.reconcile cxParse cxEnv6 "ns1" "web-0").requeueAfterSeconds = none := by
  have t := claim6_deletion_compensation r5 cxParse cxEnv6 cxPod6 "ns1" "web-0" rfl
    (by decide) rfl
  exact t.1 { name := "pvc-x", ns := "ns1", phase := "Bound" } rfl

/-- Claim C7: a pod whose annotation map carries the converted marker with
value "true" is allowed with no patch document, whatever its volumes and
other contents. -/
theorem claim7_idempotent (h : Handler)
    (iter : List (String × String) → List (String × String))
    (review : AdmissionReview) (req : AdmissionRequest) (pod : Pod)
    (m : List (String × String))
    (hreq : review.request = some req)
    (hkind : req.kindKind = "Pod")
    (hobj : req.object = Except.ok pod)
    (hann : pod.annotations = some m)
    (hval : lookupList m convertedAnno = "true") :
    serveHTTP h iter (Body.decoded review) = HandlerOutcome.response
      { uid := req.uid, allowed := true, patch := none, patchType := none,
        resultMessage := none, resultCode := none } := by
  simp [serveHTTP, hreq, hkind, hobj, annoIsTrue, hann, hval, allow]

/-- Witness for claim C7 at the concrete fixture. -/
theorem claim7_idempotent_w :
    serveHTTP defaultHandler id (Body.decoded rev7) = HandlerOutcome.response
      { uid := "u7", allowed := true, patch := none, patchType := none,
        resultMessage := none, resultCode := none } :=
  claim7_idempotent defaultHandler id rev7 req7 pod7
    [("pvc-webhook/converted", "true")] rfl rfl rfl rfl rfl

/-- Claim C8: the patch document emitted for a converting admission is
exactly the volume replaces (one per convertible volume, with strictly
increasing indices), then — when the pod had no annotation map — the single
add of the empty container at /metadata/annotations, then the annotation-key
adds (the map's entries in the runtime's iteration order), and finally the
idempotency marker as the last operation; every replace precedes every add. -/
theorem claim8_patch_order (h : Handler)
    (iter : List (String × String) → List (String × String))
    (review : AdmissionReview) (req : AdmissionRequest) (pod : Pod)
    (hperm : ∀ m, List.Perm (iter m) m)
    (hreq : review.request = some req)
    (hkind : req.kindKind = "Pod")
    (hobj : req.object = Except.ok pod)
    (hmark : annoIsTrue pod = false)
    (hconv : pod.volumes.any Volume.isEmptyDir = true) :
    serveHTTP h iter (Body.decoded review) = HandlerOutcome.response
      { uid := req.uid, allowed := true,
        patch := some ((convList pod).map (mkReplaceOp pod) ++ basePatch pod
          ++ (iter (annoMapOf h pod)).map annoAddOp ++ [markerOp]),
        patchType := some "JSONPatch",
        resultMessage := some "converted emptyDir to PVC", resultCode := none }
    ∧ List.Pairwise (fun a b : Nat × Volume => a.1 < b.1) (convList pod)
    ∧ (∀ op ∈ (convList pod).map (mkReplaceOp pod), op.op = OpKind.replace)
    ∧ (∀ op ∈ basePatch pod ++ (iter (annoMapOf h pod)).map annoAddOp ++ [markerOp],
        op.op = OpKind.add) := by
  have hacc1 : (convertAcc h pod).1 = (convList pod).map (mkReplaceOp pod) := by
    unfold convertAcc convList
    rw [foldl_volStep_fst]
    simp
  have hacc2 : (convertAcc h pod).2.2 = true := by
    unfold convertAcc
    rw [foldl_volStep_cvt]
    simp [enumFrom_any, hconv]
  refine ⟨?_, ?_, ?_, ?_⟩
  · cases hann : pod.annotations with
    | none =>
      simp [serveHTTP, hreq, hkind, hobj, hmark, hacc1, hacc2, annoMapOf, basePatch,
        hann, List.append_assoc]
    | some m =>
      simp [serveHTTP, hreq, hkind, hobj, hmark, hacc1, hacc2, annoMapOf, basePatch,
        hann, List.append_assoc]
  · exact (pairwise_enumFrom pod.volumes 0).filter _
  · intro op hop
    rcases List.mem_map.mp hop with ⟨iv, _, rfl⟩
    rfl
  · intro op hop
    rcases List.mem_append.mp hop with hop' | hop'
    · rcases List.mem_append.mp hop' with hbase | hanno
      · unfold basePatch at hbase
        cases hann : pod.annotations with
        | none => rw [hann] at hbase; simp at hbase; rw [hbase]; rfl
        | some m => rw [hann] at hbase; simp at hbase
      · rcases List.mem_map.mp hanno with ⟨kv, _, rfl⟩
        rfl
    · simp at hop'
      rw [hop']
      rfl

/-- Witness for claim C8 at the concrete fixture (identity iteration order). -/
theorem claim8_patch_order_w :
    serveHTTP defaultHandler id (Body.decoded cxReview1) = HandlerOutcome.response
      { uid := cxReq1.uid, allowed := true,
        patch := some ((convList cxPod1).map (mkReplaceOp cxPod1) ++ basePatch cxPod1
          ++ (id (annoMapOf defaultHandler cxPod1)).map annoAddOp ++ [markerOp]),
        patchType := some "JSONPatch",
        resultMessage := some "converted emptyDir to PVC", resultCode := none }
    ∧ List.Pairwise (fun a b : Nat × Volume => a.1 < b.1) (convList cxPod1) := by
  have t := claim8_patch_order defaultHandler id cxReview1 cxReq1 cxPod1
    (fun m => List.Perm.refl m) rfl rfl rfl rfl rfl
  exact ⟨t.1, t.2.1⟩

/-- Claim C9: the claim-name derivation reads only the namespace, the pod
name, and the volume name — two invocations agreeing on those three derive
the identical claim name, whatever the configuration and the rest of the
pods. -/
theorem claim9_claim_name_deterministic (p₁ p₂ : Pod) (v₁ v₂ : Volume)
    (hns : p₁.ns = p₂.ns) (hname : p₁.name = p₂.name) (hv : v₁.name = v₂.name) :
    claimFor p₁ v₁ = claimFor p₂ v₂ := by
  unfold claimFor
  rw [hns, hname, hv]

/-- Witness for claim C9: two pods agreeing only on namespace and name. -/
theorem claim9_claim_name_deterministic_w :
    claimFor pod9a { name := "data", source := .emptyDir }
      = claimFor pod9b { name := "data", source := .other } :=
  claim9_claim_name_deterministic pod9a pod9b
    { name := "data", source := .emptyDir } { name := "data", source := .other }
    rfl rfl rfl

/-- Claim C10: a well-formed admission review whose request field is absent
reaches the non-Pod branch, whose `allow` call reads the UID from the nil
request — the handler panics and produces no response document. -/
theorem claim10_nil_request_panics (h : Handler)
    (iter : List (String × String) → List (String × String))
    (review : AdmissionReview)
    (hreq : review.request = none) :
    serveHTTP h iter (Body.decoded review) = HandlerOutcome.panicked := by
  simp [serveHTTP, hreq, allow]

/-- Witness for claim C10 at the concrete fixture. -/
theorem claim10_nil_request_panics_w :
    serveHTTP defaultHandler id (Body.decoded rev10) = HandlerOutcome.panicked :=
  claim10_nil_request_panics defaultHandler id rev10 rfl

end PvcWebhook
